import Mathlib

/-!
# Verification of the ADB container engine (`src/adb.c`)

A shallow embedding of the ADB value/arena model, the reader, the
deduplicating writer, the array builder, and the container parsers of
`src/adb.c`, together with theorems settling the frozen claims about them.

Bytes are modelled as `Nat` (each `< 256` where it matters), arenas and
streams as `List Nat`, and machine arithmetic carries explicit `% 2^w`
reductions where the C code can wrap.
-/

namespace ApkAdb

/-! ## Little-endian primitives and helper macros

The value/packing macros live in `adb.h`, which is not part of the given
sources.  They are modelled from the spec (§3.1, §3.2, §6.3: 4-bit type tag
plus 28-bit payload in a 32-bit little-endian word; all multi-byte integers
little-endian). -/

/-- Little-endian decode of four bytes. -/
def le32 (b0 b1 b2 b3 : Nat) : Nat :=
  b0 + 256 * b1 + 65536 * b2 + 16777216 * b3

/-- Little-endian decode of two bytes. -/
def le16 (b0 b1 : Nat) : Nat := b0 + 256 * b1

/-- Little-endian encode of a `u32` into four bytes. -/
def le32enc (n : Nat) : List Nat :=
  [n % 256, n / 256 % 256, n / 65536 % 256, n / 16777216 % 256]

/-- Read 4 bytes little-endian at offset `o` of an arena.  Out-of-range
bytes read as 0; every use in the theorems below stays in bounds. -/
def rd32 (a : List Nat) (o : Nat) : Nat :=
  le32 (a.getD o 0) (a.getD (o + 1) 0) (a.getD (o + 2) 0) (a.getD (o + 3) 0)

/-- Read 2 bytes little-endian at offset `o` of an arena. -/
def rd16 (a : List Nat) (o : Nat) : Nat :=
  le16 (a.getD o 0) (a.getD (o + 1) 0)

/-- `b.ptr + o` viewed as a byte slice of length `len` (for reads that were
bounds-checked). -/
def slice (a : List Nat) (o len : Nat) : List Nat :=
  (a.drop o).take len

/-- `ROUND_UP(x, n)` from `apk_defines.h` (modelled from the spec's
alignment/padding rules, §3.2 and §4.1).  The C uses the bit-mask formula
`((x)+(n)-1) & ~((n)-1)`; for the power-of-two alignments used by the
engine (1, 2, 4, 32) it equals this quotient form. -/
def ROUND_UP (x n : Nat) : Nat := (x + n - 1) / n * n

/-! ## Value encoding (`adb_val_t`), modelled from spec §3.1 -/

def ADB_TYPE_SPECIAL : Nat := 0x00000000
def ADB_TYPE_INT     : Nat := 0x10000000
def ADB_TYPE_INT_32  : Nat := 0x20000000
def ADB_TYPE_INT_64  : Nat := 0x30000000
def ADB_TYPE_BLOB_8  : Nat := 0x80000000
def ADB_TYPE_BLOB_16 : Nat := 0x90000000
def ADB_TYPE_BLOB_32 : Nat := 0xa0000000
def ADB_TYPE_ARRAY   : Nat := 0xd0000000
def ADB_TYPE_OBJECT  : Nat := 0xe0000000
def ADB_TYPE_ERROR   : Nat := 0xf0000000

/-- The 4-bit type tag of a value (top nibble of the 32-bit word). -/
def ADB_VAL_TYPE (v : Nat) : Nat := v &&& 0xf0000000

/-- The 28-bit payload of a value. -/
def ADB_VAL_VALUE (v : Nat) : Nat := v &&& 0x0fffffff

/-- `ADB_VAL(type, value)`. -/
def ADB_VAL (t v : Nat) : Nat := t ||| v

def ADB_NULL : Nat := 0

/-- `ADB_ERROR(rc)`: error sentinel value carrying an error code. -/
def ADB_ERROR (rc : Nat) : Nat := ADB_VAL ADB_TYPE_ERROR rc

/-- `ADB_IS_ERROR(v)`. -/
def ADB_IS_ERROR (v : Nat) : Bool := ADB_VAL_TYPE v == ADB_TYPE_ERROR

/-- Slot index of the vector-length slot (spec §3.3: index 0 is reserved). -/
def ADBI_NUM_ENTRIES : Nat := 0
/-- Slot index of the first field/element. -/
def ADBI_FIRST : Nat := 1

def ADB_FORMAT_MAGIC : Nat := 0x2e424441

/-! ## Error codes (Linux errno values, negated on return) -/

def EIOERR : Int := 5
def E2BIG : Int := 7
def ENOMSG : Int := 42
def ENOSYS : Int := 38
def EBADMSG : Int := 74
def ENOKEY : Int := 126
def EKEYREJECTED : Int := 129

/-! ## Database state

One structure covers mapped, writable and static databases: `arena` is
`db->adb` (contents and length), `num_buckets`/`buckets` the dedup table of
a writable database.  `id` models the C object's address: `adb_w_copy`
compares `db == srcdb` as pointers, which distinct `struct adb` objects
never satisfy even when their contents coincide.  `magic` is
`db->hdr.magic` (poisoned to 0 by `adb_w_error`). -/

/-- One dedup-table entry `{hash, len, offs}` (spec §3.5). -/
structure WBucketEntry where
  hash : Nat
  len : Nat
  offs : Nat
deriving Repr, DecidableEq

structure Adb where
  id : Nat := 0
  magic : Nat := ADB_FORMAT_MAGIC
  arena : List Nat := []
  num_buckets : Nat := 0
  buckets : List (List WBucketEntry) := []
deriving Repr, DecidableEq

/-! ## Read interface -/

/-- `adb_r_deref(db, v, offs, s)`: bounds-check `[offs, offs+s)` (offset
taken relative to the value's 28-bit payload) against the arena length.
`some o` is the C pointer `db->adb.ptr + o`; `none` is the C `NULL`. -/
def adb_r_deref (db : Adb) (v offs s : Nat) : Option Nat :=
  let o := ADB_VAL_VALUE v + offs
  if o + s > db.arena.length then none else some o

/-- In `adb_r_int` the C bounds-checks `sizeof int4` bytes, where `int4` is
a `uint32_t *`: that is the size of the pointer (8 on the LP64 targets this
code builds for), not the 4 bytes that are subsequently read. -/
def sizeof_uint32_ptr : Nat := 8

/-- `adb_r_root(db)`: the last four bytes of the arena. -/
def adb_r_root (db : Adb) : Nat :=
  if db.arena.length < 4 then ADB_NULL
  else rd32 db.arena (db.arena.length - 4)

/-- `adb_r_int(db, v)`. -/
def adb_r_int (db : Adb) (v : Nat) : Nat :=
  if ADB_VAL_TYPE v = ADB_TYPE_INT then
    ADB_VAL_VALUE v
  else if ADB_VAL_TYPE v = ADB_TYPE_INT_32 then
    match adb_r_deref db v 0 sizeof_uint32_ptr with
    | none => 0
    | some o => rd32 db.arena o
  else 0

/-- An `apk_blob_t` result of `adb_r_blob`:
  * `none` — the C dereferenced the `NULL` returned by `adb_r_deref` for
    the length prefix (undefined behaviour / crash);
  * `some (none, len)` — `APK_BLOB_PTR_LEN(NULL, len)`: the data bytes
    failed the bounds check, the blob carries a null pointer;
  * `some (some bytes, len)` — a real blob. -/
def adb_r_blob (db : Adb) (v : Nat) : Option (Option (List Nat) × Nat) :=
  if ADB_VAL_TYPE v = ADB_TYPE_BLOB_8 then
    match adb_r_deref db v 0 1 with
    | none => none
    | some o =>
      let len := db.arena.getD o 0
      some ((adb_r_deref db v 1 len).map (fun d => slice db.arena d len), len)
  else if ADB_VAL_TYPE v = ADB_TYPE_BLOB_16 then
    match adb_r_deref db v 0 2 with
    | none => none
    | some o =>
      let len := rd16 db.arena o
      some ((adb_r_deref db v 2 len).map (fun d => slice db.arena d len), len)
  else if ADB_VAL_TYPE v = ADB_TYPE_BLOB_32 then
    match adb_r_deref db v 0 4 with
    | none => none
    | some o =>
      let len := rd32 db.arena o
      some ((adb_r_deref db v 4 len).map (fun d => slice db.arena d len), len)
  else some (none, 0)

/-! ## Object views (`adb_r_obj`, `adb_ro_*`) -/

/-- A decoded `struct adb_obj` view on the read side: `num` is the slot
count (slot 0 included), `vals` the decoded 32-bit slots.  The degenerate
view produced on a mismatch has `num = 1` and a `NULL` vector, modelled as
`vals = []`. -/
structure AdbObjView where
  num : Nat
  vals : List Nat
deriving Repr, DecidableEq

/-- `adb_r_obj(db, v, obj, schema)` (the schema is carried separately by the
callers in this model).  Note the first bounds check in the C covers
`sizeof(adb_val_t[ADBI_NUM_ENTRIES])` — zero bytes — before the 4-byte
length slot is read; the model mirrors that, with out-of-list bytes reading
as zero (the C reads adjacent memory there; no theorem below exercises it). -/
def adb_r_obj (db : Adb) (v : Nat) : AdbObjView :=
  if ADB_VAL_TYPE v ≠ ADB_TYPE_ARRAY ∧ ADB_VAL_TYPE v ≠ ADB_TYPE_OBJECT then
    { num := 1, vals := [] }
  else
    match adb_r_deref db v 0 (4 * ADBI_NUM_ENTRIES) with
    | none => { num := 1, vals := [] }
    | some o =>
      let num := rd32 db.arena o
      match adb_r_deref db v 0 (4 * num) with
      | none => { num := 1, vals := [] }
      | some o =>
        { num := num, vals := (List.range num).map fun i => rd32 db.arena (o + 4 * i) }

/-- `adb_r_rootobj`. -/
def adb_r_rootobj (db : Adb) : AdbObjView :=
  adb_r_obj db (adb_r_root db)

/-- `adb_ro_val(o, i)`: the slot, or `NULL` when `i ≥ num`.  (Reading a
slot of the degenerate `NULL`-vector view is undefined behaviour in the C;
modelled as 0 and never exercised below.) -/
def adb_ro_val (o : AdbObjView) (i : Nat) : Nat :=
  if i ≥ o.num then ADB_NULL else o.vals.getD i 0

/-- `adb_ro_num` (from the missing `adb.h`). Modelled from the spec and its
use in `adb_w_copy`, where the copy loop runs `i` from `ADBI_FIRST` to
`adb_ro_num - 1` over all slots: the total slot count, including slot 0. -/
def adb_ro_num (o : AdbObjView) : Nat := o.num

/-- `adb_ro_int(o, i)` for a schema without `get_default_int`. -/
def adb_ro_int (db : Adb) (o : AdbObjView) (i : Nat) : Nat :=
  adb_r_int db (adb_ro_val o i)

/-! ## Write interface: raw append and dedup interning -/

/-- `apk_blob_hash_seed` (from the missing `apk_blob.h`).  Modelled from
the spec, §4.3: a 32-bit DJBX33 hash, seed 5381, `h = h*33 ^ byte`.
`iovec_hash` chains the seed across fragments, so hashing the concatenated
fragments is identical. -/
def blobHash (data : List Nat) : Nat :=
  data.foldl (fun h b => (h * 33 % 0x100000000) ^^^ b) 5381

/-- `adb_w_raw(db, vec, n, len, alignment)`: zero-pad the arena to
`alignment`, then append the fragments (given here already concatenated);
returns the offset of the first appended byte.  The reallocation/doubling
of the backing buffer only affects capacity, which the list model leaves
implicit. -/
def adb_w_raw (db : Adb) (data : List Nat) (alignment : Nat) : Nat × Adb :=
  let pad := ROUND_UP db.arena.length alignment - db.arena.length
  let base := db.arena ++ List.replicate pad 0
  (base.length, { db with arena := base ++ data })

/-- Outcome of the bucket-chain walk in `adb_w_data`: reuse an existing
entry's offset, overwrite entry `idx` (the `goto add` on a byte match whose
offset fails the alignment test), or append a new entry (the C's
first-empty-slot / new-bucket path; empty slots are always a suffix of the
chain, so a flat per-bucket list models the chain of fixed-capacity
buckets). -/
inductive WDataDecision where
  | reuse (offs : Nat)
  | store (idx : Nat)
  | append
deriving Repr, DecidableEq

/-- The entry walk of `adb_w_data`.  Mirrors: skip on hash mismatch; on a
`(hash, len, bytes)` match, return the offset if `(offs & alignment) == 0`
(the C tests the single bit `alignment`, not `alignment - 1`), else record
a fresh copy over this entry. -/
def adb_w_find (arena : List Nat) (entries : List WBucketEntry) (idx hash len : Nat)
    (data : List Nat) (alignment : Nat) : WDataDecision :=
  match entries with
  | [] => .append
  | e :: rest =>
    if e.hash = hash ∧ e.len = len ∧ slice arena e.offs len = data then
      if e.offs &&& alignment ≠ 0 then .store idx else .reuse e.offs
    else adb_w_find arena rest (idx + 1) hash len data alignment

/-- `adb_w_data(db, vec, nvec, alignment)`: intern the byte sequence. -/
def adb_w_data (db : Adb) (data : List Nat) (alignment : Nat) : Nat × Adb :=
  if db.num_buckets = 0 then adb_w_raw db data alignment
  else
    let len := data.length
    let hash := blobHash data
    let bucketno := hash % db.num_buckets
    let entries := db.buckets.getD bucketno []
    match adb_w_find db.arena entries 0 hash len data alignment with
    | .reuse offs => (offs, db)
    | .store i =>
      let (offs, db') := adb_w_raw db data alignment
      let entries' := entries.set i ⟨hash, len, offs⟩
      (offs, { db' with buckets := db'.buckets.set bucketno entries' })
    | .append =>
      let (offs, db') := adb_w_raw db data alignment
      let entries' := entries ++ [⟨hash, len, offs⟩]
      (offs, { db' with buckets := db'.buckets.set bucketno entries' })

/-- `adb_w_data1(db, ptr, len, alignment)`; a `NULL` pointer yields
`ADB_NULL` as the offset. -/
def adb_w_data1 (db : Adb) (ptr : Option (List Nat)) (alignment : Nat) : Nat × Adb :=
  match ptr with
  | none => (ADB_NULL, db)
  | some data => adb_w_data db data alignment

/-- `adb_w_error(db, rc)`: poison the header magic and produce the error
sentinel value.  (`assert(0)` aborts only debug builds.) -/
def adb_w_error (db : Adb) (rc : Nat) : Nat × Adb :=
  (ADB_ERROR rc, { db with magic := 0 })

/-- `adb_w_root(db, root_val)`: append the root value, 4-byte aligned,
without interning. -/
def adb_w_root (db : Adb) (root_val : Nat) : Adb :=
  (adb_w_raw db (le32enc root_val) 4).2

/-- `adb_w_blob(db, b)`: prefix-width selection and interning. -/
def adb_w_blob (db : Adb) (b : List Nat) : Nat × Adb :=
  let n := b.length
  if n > 0xffff then
    let (o, db') := adb_w_data db (le32enc n ++ b) 4
    (ADB_VAL ADB_TYPE_BLOB_32 o, db')
  else if n > 0xff then
    let (o, db') := adb_w_data db ([n % 256, n / 256 % 256] ++ b) 2
    (ADB_VAL ADB_TYPE_BLOB_16 o, db')
  else if n > 0 then
    let (o, db') := adb_w_data db ([n] ++ b) 1
    (ADB_VAL ADB_TYPE_BLOB_8 o, db')
  else (ADB_NULL, db)

/-- `adb_w_int(db, val)`. -/
def adb_w_int (db : Adb) (val : Nat) : Nat × Adb :=
  if val ≥ 0x10000000 then
    let (o, db') := adb_w_data1 db (some (le32enc val)) 4
    (ADB_VAL ADB_TYPE_INT_32 o, db')
  else (ADB_VAL ADB_TYPE_INT val, db)

/-- `adb_w_init_dynamic(db, schema, buckets, num_buckets)` with a fresh
bucket table; `id` stands for the object's address. -/
def adb_w_init_dynamic (id num_buckets : Nat) : Adb :=
  { id := id, magic := ADB_FORMAT_MAGIC, arena := [],
    num_buckets := num_buckets, buckets := List.replicate num_buckets [] }

/-! ## Block framing (helpers from the missing `adb.h`)

Modelled from the spec, §3.4 and §6.1: a 4-byte little-endian block header
`raw = (type << 30) | size` where `size` covers header plus payload;
payload is zero-padded to the 32-byte container alignment.
`adb_block_length` and the stream-mode `size - 4` computations are
machine-width subtractions and wrap when `rawsize < 4`. -/

def ADB_BLOCK_ADB : Nat := 0
def ADB_BLOCK_SIG : Nat := 1
def ADB_BLOCK_DATA : Nat := 2
def ADB_BLOCK_ALIGNMENT : Nat := 32

def adb_block_type (raw : Nat) : Nat := raw >>> 30

def adb_block_rawsize (raw : Nat) : Nat := raw &&& 0x3fffffff

/-- Padded size of the block: header + payload + padding. -/
def adb_block_size (raw : Nat) : Nat :=
  ROUND_UP (adb_block_rawsize raw) ADB_BLOCK_ALIGNMENT

/-- Payload length: `rawsize - 4`, a `uint32_t` subtraction. -/
def adb_block_length (raw : Nat) : Nat :=
  (adb_block_rawsize raw + 0x100000000 - 4) % 0x100000000

def adb_block_padding (raw : Nat) : Nat :=
  adb_block_size raw - adb_block_rawsize raw

/-- `adb_block_init(type, length)`. -/
def adb_block_init (type length : Nat) : Nat :=
  ((type <<< 30) + 4 + length) % 0x100000000

/-- The bytes `adb_c_block(os, type, payload)` emits: header, payload,
zero padding. -/
def adb_c_block_bytes (type : Nat) (payload : List Nat) : List Nat :=
  let raw := adb_block_init type payload.length
  le32enc raw ++ payload ++ List.replicate (adb_block_padding raw) 0

/-! ## Container parsing: map and blob modes -/

/-- A trust context is abstracted to its effect in this file:
`adb_trust_verify_signature(t, db, vfy, sig) == 0` becomes
`verify arena sig = true` for a loaded context, and a `NULL` context is
`none`.  (Digest caching in `adb_verify_ctx` only avoids recomputation.) -/
def TrustVerify := List Nat → List Nat → Bool

/-- `!trusted && adb_trust_verify_signature(...) == 0`: the call is never
evaluated with a `NULL` context because `trusted` starts true then. -/
def verifyOpt (t : Option TrustVerify) (arena sig : List Nat) : Bool :=
  match t with
  | some f => f arena sig
  | none => false

/-- The `adb_foreach_block` loop body of `__adb_m_parse`, with the
post-loop result selection folded into the end-of-range and error exits.
Returns the result code and `db->adb` (reset to `NULL` unless the result
is 0, per the tail of `__adb_m_parse`).  Every iteration advances `pos` by
at least 32 bytes, so `fuel = data.length + 1` (as supplied by
`adb_m_parse`) never runs out; the `fuel = 0` base returns the malformed
code so partial-fuel statements stay conservative. -/
def adb_m_parse_loop (t : Option TrustVerify) :
    Nat → List Nat → Nat → Option (List Nat) → Bool → Int × Option (List Nat)
  | 0, _, _, _, _ => (-EBADMSG, none)
  | fuel + 1, data, pos, adb, trusted =>
    if pos = data.length then
      -- blk == NULL: end of range
      if ¬ trusted then (-ENOKEY, none)
      else match adb with
        | some a => (0, some a)
        | none => (-EBADMSG, none)
    else if 4 > data.length - pos then (-EBADMSG, none)
    else if adb_block_rawsize (rd32 data pos) < 4 then (-EBADMSG, none)
    else if adb_block_size (rd32 data pos) > data.length - pos then (-EBADMSG, none)
    else
      let type := adb_block_type (rd32 data pos)
      let payload := slice data (pos + 4) (adb_block_length (rd32 data pos))
      let adb' := if type = ADB_BLOCK_ADB ∧ adb = none then some payload else adb
      let trusted' :=
        if type = ADB_BLOCK_SIG ∧ adb ≠ none ∧ ¬ trusted ∧ verifyOpt t (adb.getD []) payload
        then true else trusted
      adb_m_parse_loop t fuel data (pos + adb_block_size (rd32 data pos)) adb' trusted'

/-- `__adb_m_parse(db, t)` over `db->data`. -/
def adb_m_parse (data : List Nat) (t : Option TrustVerify) : Int × Option (List Nat) :=
  adb_m_parse_loop t (data.length + 1) data 0 none t.isNone

/-- `adb_m_blob(db, blob, t)`. -/
def adb_m_blob (data : List Nat) (t : Option TrustVerify) : Int × Option (List Nat) :=
  adb_m_parse data t

/-- `adb_m_map(db, fd, expected_schema, t)` on the mapped file contents
(`fstat`/`mmap` failures are environment errors outside the model). -/
def adb_m_map (file : List Nat) (expected_schema : Nat) (t : Option TrustVerify) :
    Int × Option (List Nat) :=
  if file.length < 8 then (-EIOERR, none)
  else if rd32 file 0 ≠ ADB_FORMAT_MAGIC then (-EBADMSG, none)
  else if expected_schema ≠ 0 ∧ expected_schema ≠ rd32 file 4 then (-EBADMSG, none)
  else adb_m_parse (file.drop 8) t

/-! ## Container parsing: stream mode

The input stream is a byte list; `apk_istream_read(is, buf, n)` returns
`min n remaining` bytes.  The `DATA` callback receives the block length and
the segment bytes and returns its code `r`; whatever portion of the segment
the callback consumed, the driver discards the remainder, so the stream
always advances by the padded block body (clamped at end of stream, where a
short discard read is not an error — only `r < 0` is checked there). -/

def adb_m_stream_loop (t : Option TrustVerify) (cb : Nat → List Nat → Int) :
    Nat → List Nat → Option (List Nat) → Bool → Nat → Int × Option (List Nat)
  | 0, _, adb, _, _ => (-EBADMSG, adb)
  | fuel + 1, bytes, adb, trusted, block_no =>
    if bytes.length = 0 then
      -- r == 0: end of stream
      (if ¬ trusted then -ENOKEY else if adb = none then -ENOMSG else 0, adb)
    else if bytes.length < 4 then (-EBADMSG, adb)
    else
      let raw := rd32 bytes 0
      let rest := bytes.drop 4
      if (block_no == 0) ≠ (adb_block_type raw == ADB_BLOCK_ADB) then (-EBADMSG, adb)
      else
        -- sz = adb_block_size(&blk) - sizeof blk, a size_t subtraction
        let sz := (adb_block_size raw + 0x10000000000000000 - 4) % 0x10000000000000000
        if adb_block_type raw = ADB_BLOCK_ADB then
          if adb ≠ none then (-EBADMSG, adb)
          else if rest.length < sz then (-EBADMSG, adb)
          else adb_m_stream_loop t cb fuel (rest.drop sz)
            (some (slice rest 0 (adb_block_length raw))) trusted (block_no + 1)
        else if adb_block_type raw = ADB_BLOCK_SIG then
          if adb = none then (-EBADMSG, adb)
          else if rest.length < sz then (-EBADMSG, adb)
          else
            let sigblob := slice rest 0 (adb_block_length raw)
            let trusted' :=
              if ¬ trusted ∧ verifyOpt t (adb.getD []) sigblob then true else trusted
            adb_m_stream_loop t cb fuel (rest.drop sz) adb trusted' (block_no + 1)
        else if adb_block_type raw = ADB_BLOCK_DATA then
          if adb = none then (-EBADMSG, adb)
          else if ¬ trusted then (-ENOKEY, adb)
          else
            let r := cb (adb_block_length raw) (slice rest 0 sz)
            if r < 0 then (r, adb)
            else adb_m_stream_loop t cb fuel (rest.drop sz) adb trusted (block_no + 1)
        else (-EBADMSG, adb)

/-- `adb_m_stream(db, is, expected_schema, t, datacb)`.  (The snapshot never
checks `expected_schema` in stream mode.)  Every loop iteration consumes at
least the 4 header bytes, so the supplied fuel never runs out. -/
def adb_m_stream (input : List Nat) (t : Option TrustVerify)
    (cb : Nat → List Nat → Int) : Int × Option (List Nat) :=
  if input.length < 8 then (-EBADMSG, none)
  else if rd32 input 0 ≠ ADB_FORMAT_MAGIC then (-EBADMSG, none)
  else adb_m_stream_loop t cb (input.length + 1) (input.drop 8) none t.isNone 0

/-! ## Schemas and the object/array builder

Schema descriptors are external, read-only collaborators (spec §3.3, §4.6):
a field's kind byte discriminates, and the C recovers the enclosing
descriptor from that byte by `container_of` arithmetic.  Following the
spec's design note (§9), the model stores each callback the dispatch can
reach directly on the schema record; the callbacks themselves (comparators,
`pre_commit`) are abstract parameters. -/

/-- The `ADB_KIND_*` discriminator byte of a schema field. -/
inductive AdbKind where
  | int
  | blob
  | object
  | array
  | adb
deriving Repr, DecidableEq

structure AdbObjectSchema where
  kind : AdbKind
  num_fields : Nat
  /-- `fields[i].kind` bytes (0-based here, as in the C `fields` array). -/
  field_kinds : List AdbKind
  /-- The element object schema's `compare` (reached through
  `container_of(fields[0].kind, struct adb_object_schema, kind)`). -/
  elem_compare : AdbObjView → AdbObjView → Int
  /-- The nested-container schema's `compare` (reached through
  `container_of(fields[0].kind, struct adb_adb_schema, kind)->schema`). -/
  elem_adb_compare : AdbObjView → AdbObjView → Int
  /-- Optional `pre_commit` callback on the builder's `(obj, num)` state. -/
  pre_commit : Option (List Nat × Nat → List Nat × Nat)

/-- A write-side `struct adb_obj` builder: `obj` is the slot vector (slot 0
holds the capacity while building), `num` the used-slot count.  The backing
database is threaded separately since the model is pure. -/
structure AdbWObj where
  schema : AdbObjectSchema
  obj : List Nat
  num : Nat

/-- `adb_wo_init(o, p, schema, db)`: zero the vector, record the capacity
in the length slot. -/
def adb_wo_init (schema : AdbObjectSchema) : AdbWObj :=
  { schema := schema,
    obj := (List.replicate schema.num_fields 0).set ADBI_NUM_ENTRIES schema.num_fields,
    num := 1 }

/-- `adb_ra_num` (from the missing `adb.h`): the number of array elements,
excluding the length slot — its uses (`qsort` over `&obj[ADBI_FIRST]`, the
`i <= num` bound in `adb_wa_sort_unique`) fix it as `num - 1`. -/
def adb_ra_num (num : Nat) : Nat := num - 1

/-- `adb_wa_append(o, v)`. -/
def adb_wa_append (db : Adb) (o : AdbWObj) (v : Nat) : Nat × AdbWObj × Adb :=
  if o.num ≥ o.obj.getD ADBI_NUM_ENTRIES 0 then
    let (e, db') := adb_w_error db 7
    (e, o, db')
  else if ADB_IS_ERROR v then
    let (e, db') := adb_w_error db (ADB_VAL_VALUE v)
    (e, o, db')
  else if v ≠ ADB_NULL then
    (v, { o with obj := o.obj.set o.num v, num := o.num + 1 }, db)
  else (v, o, db)

/-- `wacmp`: decode both values as objects of the element schema and
compare. -/
def wacmp (sch : AdbObjectSchema) (db : Adb) (v1 v2 : Nat) : Int :=
  sch.elem_compare (adb_r_obj db v1) (adb_r_obj db v2)

/-- `wadbcmp`: map each element blob as an inner container and compare the
root objects under the inner schema.  A failed `adb_m_blob` leaves a null
arena (undefined behaviour in the C when the blob was null). -/
def wadbcmp (sch : AdbObjectSchema) (db : Adb) (v1 v2 : Nat) : Int :=
  let bytes := fun v => match adb_r_blob db v with
    | some (some d, _) => d
    | _ => []
  let a1 : Adb := { arena := ((adb_m_blob (bytes v1) none).2).getD [] }
  let a2 : Adb := { arena := ((adb_m_blob (bytes v2) none).2).getD [] }
  sch.elem_adb_compare (adb_r_rootobj a1) (adb_r_rootobj a2)

/-- One sorted-insertion step, used to model `qsort`. -/
def insertLe (le : Nat → Nat → Bool) (x : Nat) : List Nat → List Nat
  | [] => [x]
  | y :: ys => if le x y then x :: y :: ys else y :: insertLe le x ys

/-- A model of `qsort(base, n, size, cmp)`: one reordering consistent with
the comparator (the C leaves the order of comparator-equal elements
unspecified; no theorem below depends on which consistent order results). -/
def qsortModel (cmp : Nat → Nat → Int) (l : List Nat) : List Nat :=
  l.foldr (insertLe (fun a b => cmp a b ≤ 0)) []

/-- `adb_wa_sort(arr)`: dispatch on the element kind byte; only `OBJECT`
and `ADB` elements are sorted — the `default` arm is `assert(1)`, a no-op,
so every other element kind (scalar ints and blobs included) leaves the
array untouched. -/
def adb_wa_sort (db : Adb) (arr : AdbWObj) : AdbWObj :=
  let n := adb_ra_num arr.num
  match arr.schema.field_kinds.getD 0 .int with
  | .object =>
    let sorted := qsortModel (wacmp arr.schema db) (slice arr.obj ADBI_FIRST n)
    { arr with obj := arr.obj.take ADBI_FIRST ++ sorted ++ arr.obj.drop (ADBI_FIRST + n) }
  | .adb =>
    let sorted := qsortModel (wadbcmp arr.schema db) (slice arr.obj ADBI_FIRST n)
    { arr with obj := arr.obj.take ADBI_FIRST ++ sorted ++ arr.obj.drop (ADBI_FIRST + n) }
  | _ => arr

/-- The in-place compaction loop of `adb_wa_sort_unique`
(`for (i = 2, j = 2; i <= num; i++) ...`), running on the remaining
iteration count `num + 1 - i` supplied by `adb_wa_sort_unique`. -/
def uniqGo (obj : List Nat) (i j : Nat) : Nat → List Nat × Nat
  | 0 => (obj, j)
  | k + 1 =>
    if obj.getD i 0 = obj.getD (i - 1) 0 then uniqGo obj (i + 1) j k
    else uniqGo (obj.set j (obj.getD i 0)) (i + 1) (j + 1) k

def uniqLoop (obj : List Nat) (i j num : Nat) : List Nat × Nat :=
  uniqGo obj i j (num + 1 - i)

/-- `adb_wa_sort_unique(arr)`: sort, then drop adjacent equal slots. -/
def adb_wa_sort_unique (db : Adb) (arr : AdbWObj) : AdbWObj :=
  let arr := adb_wa_sort db arr
  let num := adb_ra_num arr.num
  if num ≥ 2 then
    let (obj', j) := uniqLoop arr.obj 2 2 num
    { arr with obj := obj', num := j }
  else arr

/-- The trailing-`NULL` truncation of `__adb_w_obj`:
`for (n = o->num; n > 1 && obj[n-1] == ADB_NULL; n--)`. -/
def truncNulls (obj : List Nat) : Nat → Nat
  | 0 => 0
  | n + 1 => if n ≥ 1 ∧ obj.getD n 0 = ADB_NULL then truncNulls obj n else n + 1

/-- `__adb_w_obj(o, type)`: run `pre_commit`, truncate trailing nulls,
store the final length in slot 0, intern the vector 4-byte aligned, and
reset the builder (restoring the saved capacity in slot 0). -/
def adb_w_obj_commit (db : Adb) (o : AdbWObj) (type : Nat) : Nat × AdbWObj × Adb :=
  let max := o.obj.getD ADBI_NUM_ENTRIES 0
  let s := match o.schema.pre_commit with
    | some f => f (o.obj, o.num)
    | none => (o.obj, o.num)
  let n := truncNulls s.1 s.2
  if n > 1 then
    let obj1 := s.1.set ADBI_NUM_ENTRIES n
    let (offs, db') := adb_w_data1 db (some (((obj1.take n).map le32enc).flatten)) 4
    let o' := { o with
      obj := (List.replicate s.2 0 ++ obj1.drop s.2).set ADBI_NUM_ENTRIES max,
      num := 1 }
    (ADB_VAL type offs, o', db')
  else
    let o' := { o with
      obj := (List.replicate s.2 0 ++ s.1.drop s.2).set ADBI_NUM_ENTRIES max,
      num := 1 }
    (ADB_NULL, o', db)

/-- `adb_w_arr(o)`. -/
def adb_w_arr (db : Adb) (o : AdbWObj) : Nat × AdbWObj × Adb :=
  adb_w_obj_commit db o ADB_TYPE_ARRAY

/-- `adb_w_obj(o)`. -/
def adb_w_obj (db : Adb) (o : AdbWObj) : Nat × AdbWObj × Adb :=
  adb_w_obj_commit db o ADB_TYPE_OBJECT

/-! ## Cross-database copy (`adb_w_copy`)

The C recursion over object slots has no depth bound of its own (only the
512-slot width cap per level); `fuel` models the call-stack depth, and
`none` models undefined behaviour — either the `*(uintN_t*)NULL` length
read of a blob whose prefix fails its bounds check, or exhausted fuel.
`db == srcdb` is pointer identity, modelled by `id`. -/

def adb_w_copy (fuel : Nat) (db srcdb : Adb) (v : Nat) : Option (Nat × Adb) :=
  if db.id = srcdb.id then some (v, db)
  else if ADB_VAL_TYPE v = ADB_TYPE_SPECIAL ∨ ADB_VAL_TYPE v = ADB_TYPE_INT then
    some (v, db)
  else if ADB_VAL_TYPE v = ADB_TYPE_INT_32 then
    -- sz = align = sizeof(uint32_t)
    let ptr := (adb_r_deref srcdb v 0 4).map fun o => slice srcdb.arena o 4
    let r := adb_w_data1 db ptr 4
    some (ADB_VAL (ADB_VAL_TYPE v) r.1, r.2)
  else if ADB_VAL_TYPE v = ADB_TYPE_BLOB_8 then
    match adb_r_deref srcdb v 0 1 with
    | none => none
    | some p =>
      let sz := 1 + srcdb.arena.getD p 0
      let ptr := (adb_r_deref srcdb v 0 sz).map fun o => slice srcdb.arena o sz
      let r := adb_w_data1 db ptr 1
      some (ADB_VAL (ADB_VAL_TYPE v) r.1, r.2)
  else if ADB_VAL_TYPE v = ADB_TYPE_BLOB_16 then
    match adb_r_deref srcdb v 0 2 with
    | none => none
    | some p =>
      -- the C computes `sz = 1UL + *(uint16_t *) ptr`: one byte for the
      -- two-byte length prefix
      let sz := 1 + rd16 srcdb.arena p
      let ptr := (adb_r_deref srcdb v 0 sz).map fun o => slice srcdb.arena o sz
      let r := adb_w_data1 db ptr 1
      some (ADB_VAL (ADB_VAL_TYPE v) r.1, r.2)
  else if ADB_VAL_TYPE v = ADB_TYPE_OBJECT ∨ ADB_VAL_TYPE v = ADB_TYPE_ARRAY then
    match fuel with
    | 0 => none
    | f + 1 =>
      let obj := adb_r_obj srcdb v
      let sz := adb_ro_num obj
      if sz > 512 then some (adb_w_error db 7)
      else
        -- `for (i = ADBI_FIRST; i < sz; i++) cpy[i] = adb_w_copy(...)`,
        -- threading the destination database; `none` (a crash in a
        -- recursive call) aborts, error *values* are stored and copying
        -- continues, as in the C
        let slots := ((List.range' ADBI_FIRST (sz - 1)).map (adb_ro_val obj)).foldl
          (fun acc vi =>
            match acc with
            | none => none
            | some (cvs, db') =>
              match adb_w_copy f db' srcdb vi with
              | none => none
              | some (cv, db'') => some (cvs ++ [cv], db''))
          (some ([], db))
        match slots with
        | none => none
        | some (cvs, db') =>
          let cpy := obj.vals.getD ADBI_NUM_ENTRIES 0 :: cvs
          let r := adb_w_data1 db' (some ((cpy.map le32enc).flatten)) 4
          some (ADB_VAL (ADB_VAL_TYPE v) r.1, r.2)
  else
    -- ADB_TYPE_INT_64, ADB_TYPE_BLOB_32, default
    some (adb_w_error db 38)

/-! ## Well-formedness of a block stream

Companion predicates to the parse loops: `blocksWf` says every block of the
range passes the `adb_block_validate` checks up to the end of the range,
and `firstAdb` extracts the payload of the first `ADB`-typed block.  Both
walk the range exactly as the loops do. -/

def blocksWf : Nat → List Nat → Nat → Bool
  | 0, _, _ => false
  | fuel + 1, data, pos =>
    if pos = data.length then true
    else if 4 > data.length - pos then false
    else if adb_block_rawsize (rd32 data pos) < 4 then false
    else if adb_block_size (rd32 data pos) > data.length - pos then false
    else blocksWf fuel data (pos + adb_block_size (rd32 data pos))

def firstAdb : Nat → List Nat → Nat → Option (List Nat)
  | 0, _, _ => none
  | fuel + 1, data, pos =>
    if pos = data.length then none
    else if 4 > data.length - pos then none
    else if adb_block_rawsize (rd32 data pos) < 4 then none
    else if adb_block_size (rd32 data pos) > data.length - pos then none
    else if adb_block_type (rd32 data pos) = ADB_BLOCK_ADB then
      some (slice data (pos + 4) (adb_block_length (rd32 data pos)))
    else firstAdb fuel data (pos + adb_block_size (rd32 data pos))

/-! ## Concrete scenarios used by the theorems -/

/-- A writable database that interned `[2,97,98]` (the `BLOB_8` image of
`"ab"`) and then `[3,0,0,16]` (the `BLOB_8` image of `"\x00\x00\x10"`),
both with byte alignment: the second entry sits at offset 3. -/
def dedupDb : Adb :=
  (adb_w_data (adb_w_data (adb_w_init_dynamic 0 16) [2, 97, 98] 1).2 [3, 0, 0, 16] 1).2

/-- The same state reached through the public API: two `adb_w_blob` calls. -/
def c8Db : Adb :=
  (adb_w_blob (adb_w_blob (adb_w_init_dynamic 0 16) [97, 98]).2 [0, 0, 16]).2

/-- An arena whose last (and only) four bytes are the `INT_32` payload 5. -/
def c4Db : Adb := { arena := [5, 0, 0, 0] }

/-- An arena holding a `BLOB_16` payload at offset 0: prefix `01 00`,
one data byte `0x41`. -/
def c6Src : Adb := { id := 1, arena := [1, 0, 65] }

def c6Dst : Adb := adb_w_init_dynamic 2 16

/-- An empty `SIG` block (header `0x40000004`, 28 padding bytes). -/
def sigEmptyBlock : List Nat := adb_c_block_bytes ADB_BLOCK_SIG []

/-- An `ADB` block with a four-byte payload. -/
def adbBlock4 (a b c d : Nat) : List Nat := adb_c_block_bytes ADB_BLOCK_ADB [a, b, c, d]

/-- A container whose first block is a `SIG` and whose second block is the
`ADB` block. -/
def c5Container : List Nat := sigEmptyBlock ++ adbBlock4 0 0 0 0

/-- A container header: magic `0x2e424441`, schema 0. -/
def hdrBytes : List Nat := le32enc ADB_FORMAT_MAGIC ++ le32enc 0

/-- The schema of an array of scalar ints, capacity 4 elements.  The two
comparator callbacks are arbitrary (they are unreachable for this element
kind), `pre_commit` is absent. -/
def intArraySchema : AdbObjectSchema :=
  { kind := .array, num_fields := 5, field_kinds := [.int],
    elem_compare := fun _ _ => 0, elem_adb_compare := fun _ _ => 0,
    pre_commit := none }

/-- `adb_wa_append(&arr, adb_w_int(db, n))`. -/
def c2Step (s : AdbWObj × Adb) (n : Nat) : AdbWObj × Adb :=
  let w := adb_w_int s.2 n
  let r := adb_wa_append w.2 s.1 w.1
  (r.2.1, r.2.2)

/-- The int array `[5, 2, 2, 9]` built into a fresh writable database. -/
def c2Built : AdbWObj × Adb :=
  [5, 2, 2, 9].foldl c2Step (adb_wo_init intArraySchema, adb_w_init_dynamic 0 16)

/-- `adb_wa_sort_unique` applied to that array, then committed with
`adb_w_arr`. -/
def c2Commit : Nat × AdbWObj × Adb :=
  adb_w_arr c2Built.2 (adb_wa_sort_unique c2Built.2 c2Built.1)

/-- Reading the committed array back: `adb_r_int` of every element slot. -/
def c2ReadBack : List Nat :=
  let db := c2Commit.2.2
  let view := adb_r_obj db c2Commit.1
  (List.range' 1 (adb_ro_num view - 1)).map fun i => adb_r_int db (adb_ro_val view i)

/-! ## Theorems settling the claims -/

/-- **C1** (code bug).  The dedup table of `dedupDb` holds the byte
sequence `[3,0,0,16]` at offset 3.  Re-interning those bytes with
requested alignment 4 returns the existing entry (offset 3, database
untouched): the arena bytes at `[3, 7)` do equal the candidate, but the
returned offset is not a multiple of the requested alignment — the C
tests the single bit `offs & alignment` instead of `offs & (alignment-1)`,
so offset 3 passes the check for alignment 4. -/
theorem adb_w_data_returns_misaligned_interned_offset :
    (adb_w_data dedupDb [3, 0, 0, 16] 4).1 = 3 ∧
    (adb_w_data dedupDb [3, 0, 0, 16] 4).2 = dedupDb ∧
    slice dedupDb.arena 3 4 = [3, 0, 0, 16] ∧
    3 % 4 ≠ 0 := by decide

/-- **C2 counterexample**.  The int array `[5, 2, 2, 9]` read back after
`adb_wa_sort_unique` is `[5, 2, 9]`, not the `[2, 5, 9]` the claim
states: `adb_wa_sort` dispatches only on `OBJECT`/`ADB` element kinds and
leaves scalar-int arrays unsorted, so only the adjacent duplicate is
removed. -/
theorem adb_wa_sort_unique_int_array_not_sorted :
    c2ReadBack = [5, 2, 9] ∧ c2ReadBack ≠ [2, 5, 9] := by decide

/-- **C2** (amended).  `adb_wa_sort` sorts only arrays whose element kind
is `OBJECT` or `ADB`; for every other element kind — scalar ints included —
it is the identity, so `adb_wa_sort_unique` merely removes adjacent equal
slots, and the int array `[5, 2, 2, 9]` reads back as `[5, 2, 9]`. -/
theorem adb_wa_sort_scalar_kinds_noop :
    (∀ (db : Adb) (arr : AdbWObj),
      arr.schema.field_kinds.getD 0 .int ≠ .object →
      arr.schema.field_kinds.getD 0 .int ≠ .adb →
      adb_wa_sort db arr = arr) ∧
    c2ReadBack = [5, 2, 9] := by
  constructor
  · intro db arr hobj hadb
    unfold adb_wa_sort
    cases hk : arr.schema.field_kinds.getD 0 .int
    · rfl
    · rfl
    · exact absurd hk hobj
    · rfl
    · exact absurd hk hadb
  · decide

/-- **C2 witness** for `adb_wa_sort_scalar_kinds_noop`: the unsorted
`[5,2,2,9]` builder state itself is left unchanged by `adb_wa_sort`. -/
theorem adb_wa_sort_scalar_kinds_noop_witness :
    adb_wa_sort c2Built.2 c2Built.1 = c2Built.1 ∧ c2ReadBack = [5, 2, 9] :=
  ⟨adb_wa_sort_scalar_kinds_noop.1 c2Built.2 c2Built.1 (by decide) (by decide),
   adb_wa_sort_scalar_kinds_noop.2⟩

/-- **C3** (code bug).  `adb_r_blob` on a `BLOB_8` value whose one-byte
length prefix lies past the end of the arena dereferences the `NULL`
returned by `adb_r_deref` (modelled `none`) instead of returning the null
blob; when only the data bytes overrun, it returns a blob with a `NULL`
pointer and the decoded length. -/
theorem adb_r_blob_oob_prefix_crashes :
    adb_r_blob { arena := [] } (ADB_VAL ADB_TYPE_BLOB_8 0) = none ∧
    adb_r_blob { arena := [5, 65, 66] } (ADB_VAL ADB_TYPE_BLOB_8 0) =
      some (none, 5) := by decide

/-- **C4** (code bug).  The value `INT_32|0` over the 4-byte arena
`[5,0,0,0]`: the payload lies entirely within the arena and decodes to 5,
yet `adb_r_int` returns 0, because the bounds check covers
`sizeof int4` = 8 bytes (the pointer's size) rather than the 4 bytes read.
With 8 bytes of arena the same value reads back correctly. -/
theorem adb_r_int_int32_tail_window_reads_zero :
    ADB_VAL_VALUE (ADB_VAL ADB_TYPE_INT_32 0) + 4 ≤ c4Db.arena.length ∧
    rd32 c4Db.arena 0 = 5 ∧
    adb_r_int c4Db (ADB_VAL ADB_TYPE_INT_32 0) = 0 ∧
    adb_r_int { arena := [5, 0, 0, 0, 0, 0, 0, 0] } (ADB_VAL ADB_TYPE_INT_32 0) = 5 := by
  decide

/-- **C5 counterexample**.  A container whose first block is a `SIG` block
and whose second block is the `ADB` block parses successfully in blob mode
(null trust): `__adb_m_parse` ignores blocks preceding the first `ADB`
block instead of rejecting the container as malformed. -/
theorem adb_m_blob_accepts_sig_before_adb :
    adb_m_blob c5Container none = (0, some [0, 0, 0, 0]) ∧
    adb_block_type (rd32 c5Container 0) = ADB_BLOCK_SIG ∧
    ADB_BLOCK_SIG ≠ ADB_BLOCK_ADB := by decide

/-- **C6** (code bug).  Copying the `BLOB_16` value of `c6Src` (prefix
`01 00`, data `0x41`) into a different writable database writes only two
bytes — `sz = 1UL + *(uint16_t*)ptr` counts one byte for the two-byte
prefix — and with alignment 1 rather than the prefix width.  The copied
arena is `[1, 0]`: the data byte is lost, and reading the copied value
yields a null-pointer blob instead of the source blob `[0x41]`. -/
theorem adb_w_copy_blob16_drops_last_byte :
    adb_r_blob c6Src (ADB_VAL ADB_TYPE_BLOB_16 0) = some (some [65], 1) ∧
    (adb_w_copy 8 c6Dst c6Src (ADB_VAL ADB_TYPE_BLOB_16 0)).map
      (fun p => (p.1, p.2.arena)) = some (ADB_VAL ADB_TYPE_BLOB_16 0, [1, 0]) ∧
    (adb_w_copy 8 c6Dst c6Src (ADB_VAL ADB_TYPE_BLOB_16 0)).map
      (fun p => adb_r_blob p.2 p.1) = some (some (none, 1)) := by decide

/-- **C8** (code bug).  `adb_w_int` is inline below `2^28` (arena and
buckets untouched), but for `v = 0x10000003` on `c8Db` — whose dedup table
already holds the bytes `[3,0,0,16]` at the odd offset 3 — the dedup hit
passes the buggy `offs & alignment` test and `adb_w_int` returns an
`INT_32` value referencing offset 3, which is not 4-byte aligned (and
nothing new is stored). -/
theorem adb_w_int_int32_payload_misaligned :
    adb_w_int c8Db 5 = (ADB_VAL ADB_TYPE_INT 5, c8Db) ∧
    adb_w_int c8Db 0x0fffffff = (ADB_VAL ADB_TYPE_INT 0x0fffffff, c8Db) ∧
    (adb_w_int c8Db 0x10000003).1 = ADB_VAL ADB_TYPE_INT_32 3 ∧
    (adb_w_int c8Db 0x10000003).2 = c8Db ∧
    slice c8Db.arena 3 4 = le32enc 0x10000003 ∧
    ADB_VAL_VALUE ((adb_w_int c8Db 0x10000003).1) % 4 ≠ 0 := by decide

/-- **C9** (confirmed).  `adb_w_copy` with identical source and destination
database (the C compares the two pointers) returns the value unchanged and
leaves the database — arena length, contents, and dedup table — untouched,
at every recursion depth. -/
theorem adb_w_copy_same_db_identity :
    ∀ (fuel : Nat) (db : Adb) (v : Nat), adb_w_copy fuel db db v = some (v, db) := by
  intro fuel db v
  cases fuel <;> simp [adb_w_copy]

/-- **C5** (amended).  In map/blob mode a block whose type is not `ADB`,
met while no arena has been found yet, is skipped: the parse continues at
the next block with the same (empty) arena and trust state, instead of
rejecting the container — so the arena is the payload of the first `ADB`
block wherever it occurs, as the concrete `SIG`-first container shows. -/
theorem adb_m_parse_ignores_blocks_before_first_adb :
    (∀ (t : Option TrustVerify) (fuel : Nat) (data : List Nat) (pos : Nat) (trusted : Bool),
      pos ≠ data.length →
      ¬ 4 > data.length - pos →
      ¬ adb_block_rawsize (rd32 data pos) < 4 →
      ¬ adb_block_size (rd32 data pos) > data.length - pos →
      adb_block_type (rd32 data pos) ≠ ADB_BLOCK_ADB →
      adb_m_parse_loop t (fuel + 1) data pos none trusted =
        adb_m_parse_loop t fuel data (pos + adb_block_size (rd32 data pos)) none trusted) ∧
    adb_m_blob (sigEmptyBlock ++ adbBlock4 7 7 7 7) none = (0, some [7, 7, 7, 7]) := by
  constructor
  · intro t fuel data pos trusted h1 h2 h3 h4 h5
    simp only [adb_m_parse_loop, if_neg h1, if_neg h2, if_neg h3, if_neg h4]
    simp [h5]
  · decide

/-- **C5 witness** for `adb_m_parse_ignores_blocks_before_first_adb`: the
leading empty `SIG` block of `c5Container` is skipped in place. -/
theorem adb_m_parse_ignores_blocks_before_first_adb_witness :
    adb_m_parse_loop none 33 c5Container 0 none true =
      adb_m_parse_loop none 32 c5Container 32 none true ∧
    adb_m_blob (sigEmptyBlock ++ adbBlock4 7 7 7 7) none = (0, some [7, 7, 7, 7]) :=
  ⟨adb_m_parse_ignores_blocks_before_first_adb.1 none 32 c5Container 0 true
      (by decide) (by decide) (by decide) (by decide) (by decide),
   adb_m_parse_ignores_blocks_before_first_adb.2⟩

/-- **C7** (confirmed).  In stream mode, with a loaded trust context:
a first block that is not `ADB` fails the parse as malformed; at any later
block (`block_no ≠ 0`) an `ADB` type fails as malformed; and a `DATA`
block met while no signature has verified yet (`trusted = false`, the
initial state when a trust context is present) fails with the no-key
error before the callback runs. -/
theorem adb_m_stream_block_order_and_data_no_key :
    (∀ (input : List Nat) (t : TrustVerify) (cb : Nat → List Nat → Int),
      ¬ input.length < 8 →
      rd32 input 0 = ADB_FORMAT_MAGIC →
      ¬ (input.drop 8).length < 4 →
      adb_block_type (rd32 (input.drop 8) 0) ≠ ADB_BLOCK_ADB →
      adb_m_stream input (some t) cb = (-EBADMSG, none)) ∧
    (∀ (t : Option TrustVerify) (cb : Nat → List Nat → Int) (fuel : Nat)
       (bytes : List Nat) (adb : Option (List Nat)) (trusted : Bool) (bn : Nat),
      bn ≠ 0 →
      ¬ bytes.length < 4 →
      adb_block_type (rd32 bytes 0) = ADB_BLOCK_ADB →
      adb_m_stream_loop t cb (fuel + 1) bytes adb trusted bn = (-EBADMSG, adb)) ∧
    (∀ (t : Option TrustVerify) (cb : Nat → List Nat → Int) (fuel : Nat)
       (bytes : List Nat) (a : List Nat) (bn : Nat),
      bn ≠ 0 →
      ¬ bytes.length < 4 →
      adb_block_type (rd32 bytes 0) = ADB_BLOCK_DATA →
      adb_m_stream_loop t cb (fuel + 1) bytes (some a) false bn = (-ENOKEY, some a)) := by
  refine ⟨?_, ?_, ?_⟩
  · intro input t cb h8 hmagic h4 htype
    have h0 : ¬ (input.drop 8).length = 0 := by omega
    simp only [adb_m_stream, if_neg h8, hmagic, if_pos rfl]
    simp only [adb_m_stream_loop, if_neg h0, if_neg h4]
    simp [htype]
  · intro t cb fuel bytes adb trusted bn hbn h4 htype
    have h0 : ¬ bytes.length = 0 := by omega
    simp only [adb_m_stream_loop, if_neg h0, if_neg h4]
    simp [htype, hbn]
  · intro t cb fuel bytes a bn hbn h4 htype
    have h0 : ¬ bytes.length = 0 := by omega
    simp only [adb_m_stream_loop, if_neg h0, if_neg h4]
    simp [htype, hbn, ADB_BLOCK_DATA, ADB_BLOCK_ADB, ADB_BLOCK_SIG]

/-- **C7 witness** for `adb_m_stream_block_order_and_data_no_key`: a
`SIG`-first stream is malformed; a second `ADB` block is malformed; an
untrusted `DATA` block yields the no-key error. -/
theorem adb_m_stream_block_order_and_data_no_key_witness :
    adb_m_stream (hdrBytes ++ sigEmptyBlock) (some fun _ _ => false) (fun _ _ => 0) =
      (-EBADMSG, none) ∧
    adb_m_stream_loop none (fun _ _ => 0) 6 (adbBlock4 1 2 3 4) (some [9]) false 1 =
      (-EBADMSG, some [9]) ∧
    adb_m_stream_loop none (fun _ _ => 0) 6 (adb_c_block_bytes ADB_BLOCK_DATA [9, 9, 9])
      (some [1, 2, 3, 4]) false 1 = (-ENOKEY, some [1, 2, 3, 4]) :=
  ⟨adb_m_stream_block_order_and_data_no_key.1 (hdrBytes ++ sigEmptyBlock)
      (fun _ _ => false) (fun _ _ => 0) (by decide) (by decide) (by decide) (by decide),
   adb_m_stream_block_order_and_data_no_key.2.1 none (fun _ _ => 0) 5
      (adbBlock4 1 2 3 4) (some [9]) false 1 (by decide) (by decide) (by decide),
   adb_m_stream_block_order_and_data_no_key.2.2 none (fun _ _ => 0) 5
      (adb_c_block_bytes ADB_BLOCK_DATA [9, 9, 9]) [1, 2, 3, 4] 1
      (by decide) (by decide) (by decide)⟩

/-- With trust established (`trusted = true`, the initial state of a null
trust context), `__adb_m_parse` can never produce the no-key error: the
flag never drops back, and the end-of-range exit returns 0 or the
malformed code. -/
theorem parse_loop_trusted_ne_enokey (t : Option TrustVerify) :
    ∀ (fuel : Nat) (data : List Nat) (pos : Nat) (adb : Option (List Nat)),
      (adb_m_parse_loop t fuel data pos adb true).1 ≠ -ENOKEY := by
  intro fuel
  induction fuel with
  | zero =>
    intro data pos adb
    simp [adb_m_parse_loop, EBADMSG, ENOKEY]
  | succ n ih =>
    intro data pos adb
    simp only [adb_m_parse_loop]
    split_ifs <;>
      first
        | exact ih _ _ _
        | (cases adb <;> simp_all [EBADMSG, ENOKEY])

set_option maxHeartbeats 1000000 in
/-- The stream-mode analogue: with `trusted = true` the loop never yields
the no-key error (provided the user callback does not return it as its own
error code, which the engine merely propagates). -/
theorem stream_loop_trusted_ne_enokey (t : Option TrustVerify)
    (cb : Nat → List Nat → Int) (hcb : ∀ n s, cb n s ≠ -ENOKEY) :
    ∀ (fuel : Nat) (bytes : List Nat) (adb : Option (List Nat)) (bn : Nat),
      (adb_m_stream_loop t cb fuel bytes adb true bn).1 ≠ -ENOKEY := by
  intro fuel
  induction fuel with
  | zero =>
    intro bytes adb bn
    simp [adb_m_stream_loop, EBADMSG, ENOKEY]
  | succ n ih =>
    intro bytes adb bn
    simp only [adb_m_stream_loop]
    split_ifs <;>
      first
        | exact ih _ _ _
        | exact hcb _ _
        | (cases adb <;> simp_all [EBADMSG, ENOKEY, ENOMSG])

/-- On a well-formed block range with trust established, `__adb_m_parse`
returns 0 with the arena already found, or the payload of the first `ADB`
block, or the malformed code when there is no `ADB` block at all. -/
theorem parse_loop_wf (t : Option TrustVerify) :
    ∀ (fuel : Nat) (data : List Nat) (pos : Nat) (adb : Option (List Nat)),
      blocksWf fuel data pos = true →
      adb_m_parse_loop t fuel data pos adb true =
        (match adb with
         | some a => (0, some a)
         | none =>
           match firstAdb fuel data pos with
           | some a => (0, some a)
           | none => (-EBADMSG, none)) := by
  intro fuel
  induction fuel with
  | zero => intro data pos adb h; simp [blocksWf] at h
  | succ n ih =>
    intro data pos adb h
    rw [blocksWf] at h
    by_cases h1 : pos = data.length
    · simp only [adb_m_parse_loop, firstAdb, if_pos h1]
      cases adb <;> simp
    by_cases h2 : 4 > data.length - pos
    · simp [h1, h2] at h
    by_cases h3 : adb_block_rawsize (rd32 data pos) < 4
    · simp [h1, h2, h3] at h
    by_cases h4 : adb_block_size (rd32 data pos) > data.length - pos
    · simp [h1, h2, h3, h4] at h
    have hwf : blocksWf n data (pos + adb_block_size (rd32 data pos)) = true := by
      simpa [h1, h2, h3, h4] using h
    simp only [adb_m_parse_loop, firstAdb, if_neg h1, if_neg h2, if_neg h3, if_neg h4]
    by_cases h5 : adb_block_type (rd32 data pos) = ADB_BLOCK_ADB
    · cases adb with
      | none => simp [h5, ih _ _ _ hwf]
      | some a => simp [h5, ih _ _ _ hwf]
    · cases adb with
      | none => simp [h5, ih _ _ _ hwf]
      | some a => simp [h5, ih _ _ _ hwf]

/-- **C10** (confirmed).  With a null trust context the parse starts
trusted: blob, map and stream mode never fail with the no-key error (in
stream mode assuming the user's data callback does not itself return that
code, which the engine would only propagate), and a well-formed block
range containing an `ADB` block parses successfully in blob mode with the
first `ADB` payload as arena — signatures never being consulted, since the
`!trusted && verify(...)` conjunction short-circuits. -/
theorem adb_m_null_trust_never_no_key :
    (∀ data : List Nat, (adb_m_blob data none).1 ≠ -ENOKEY) ∧
    (∀ (file : List Nat) (sch : Nat), (adb_m_map file sch none).1 ≠ -ENOKEY) ∧
    (∀ (input : List Nat) (cb : Nat → List Nat → Int),
      (∀ n s, cb n s ≠ -ENOKEY) → (adb_m_stream input none cb).1 ≠ -ENOKEY) ∧
    (∀ (data A : List Nat),
      blocksWf (data.length + 1) data 0 = true →
      firstAdb (data.length + 1) data 0 = some A →
      adb_m_blob data none = (0, some A)) := by
  refine ⟨?_, ?_, ?_, ?_⟩
  · intro data
    simpa [adb_m_blob, adb_m_parse] using
      parse_loop_trusted_ne_enokey none (data.length + 1) data 0 none
  · intro file sch
    unfold adb_m_map
    split_ifs
    · simp [EIOERR, ENOKEY]
    · simp [EBADMSG, ENOKEY]
    · simp [EBADMSG, ENOKEY]
    · simpa [adb_m_parse] using
        parse_loop_trusted_ne_enokey none ((file.drop 8).length + 1) (file.drop 8) 0 none
  · intro input cb hcb
    unfold adb_m_stream
    split_ifs
    · simp [EBADMSG, ENOKEY]
    · simp [EBADMSG, ENOKEY]
    · simpa using
        stream_loop_trusted_ne_enokey none cb hcb (input.length + 1) (input.drop 8) none 0
  · intro data A h1 h2
    have := parse_loop_wf none (data.length + 1) data 0 none h1
    simpa [adb_m_blob, adb_m_parse, h2] using this

/-- **C10 witness** for `adb_m_null_trust_never_no_key`, at the
`SIG`-first container, a truncated file, a well-formed stream, and a plain
single-`ADB`-block range. -/
theorem adb_m_null_trust_never_no_key_witness :
    (adb_m_blob c5Container none).1 ≠ -ENOKEY ∧
    (adb_m_map [1, 2, 3] 0 none).1 ≠ -ENOKEY ∧
    (adb_m_stream (hdrBytes ++ adbBlock4 1 2 3 4) none (fun _ _ => 0)).1 ≠ -ENOKEY ∧
    adb_m_blob (adbBlock4 1 2 3 4) none = (0, some [1, 2, 3, 4]) :=
  ⟨adb_m_null_trust_never_no_key.1 c5Container,
   adb_m_null_trust_never_no_key.2.1 [1, 2, 3] 0,
   adb_m_null_trust_never_no_key.2.2.1 (hdrBytes ++ adbBlock4 1 2 3 4)
      (fun _ _ => 0) (fun _ _ => by show (0 : Int) ≠ -ENOKEY; decide),
   adb_m_null_trust_never_no_key.2.2.2 (adbBlock4 1 2 3 4) [1, 2, 3, 4]
      (by decide) (by decide)⟩

end ApkAdb
